/-
Verification of the jok3r filter-translation core:
  * lib/requester/Condition.py  (Condition.translate and its per-kind translators)
  * lib/importer/Config.py      (SERVICE_NAME_MATCHING, get_service_name)

The translators build SQLAlchemy filter expressions; here predicates are an
explicit expression syntax (`SqlFilter`) with an evaluation semantics (`evalPred`).
Python runtime values are modelled by `Value`, Python exceptions by `PyError`
(FilterException from lib/core/Exceptions.py, plus the builtin ValueError /
NameError / AttributeError that the translation code can raise).
Helpers from lib/utils/NetUtils.py and the FilterData enumeration from
lib/core/Constants.py are not part of the analysed sources and are modelled
from the specification, as marked on each such definition.
-/
import Mathlib

/-- Model of the Python runtime values that reach the translators: strings,
integers, booleans and None. -/
inductive Value where
  | str (s : String)
  | int (n : Int)
  | bool (b : Bool)
  | null
deriving DecidableEq, Repr

/-- Model of the exceptions the translation code can raise: FilterException
(lib/core/Exceptions.py) and the Python builtins ValueError (from int()),
NameError (undefined identifier) and AttributeError (missing method). -/
inductive PyError where
  | filterException (msg : String)
  | valueError (msg : String)
  | nameError (name : String)
  | attributeError (msg : String)
deriving DecidableEq, Repr

/-- Python truthiness (`if value:`): False, 0, "" and None are falsy. -/
def truthy : Value → Bool
  | .str s => s ≠ ""
  | .int n => n ≠ 0
  | .bool b => b
  | .null => false

/-- Python str() on a model value. -/
def pyStr : Value → String
  | .str s => s
  | .int n => toString n
  | .bool b => if b then "True" else "False"
  | .null => "None"

/-- Numeric value of a list of decimal digit characters. -/
def digitsToNat (cs : List Char) : Nat :=
  cs.foldl (fun acc c => 10 * acc + (c.toNat - 48)) 0

/-- Parse of a decimal integer string with optional sign, as accepted by the
Python builtin int(); returns none when the string is not an integer
literal. -/
def pyParseInt (s : String) : Option Int :=
  match s.data with
  | [] => none
  | '-' :: rest =>
      if rest ≠ [] ∧ rest.all Char.isDigit then some (-(digitsToNat rest : Int)) else none
  | '+' :: rest =>
      if rest ≠ [] ∧ rest.all Char.isDigit then some (digitsToNat rest : Int) else none
  | cs =>
      if cs.all Char.isDigit then some (digitsToNat cs : Int) else none

/-- Python int(value): parses strings, truncates nothing on ints, maps booleans
to 0/1, and raises ValueError on a non-numeric string. -/
def pyInt : Value → Except PyError Int
  | .str s =>
      match pyParseInt s with
      | some n => .ok n
      | none => .error (.valueError ("invalid literal for int with base 10: " ++ s))
  | .int n => .ok n
  | .bool b => .ok (if b then 1 else 0)
  | .null => .error (.valueError "int argument must not be None")

/-- Python value.lower(): defined on strings, AttributeError otherwise. -/
def pyLower : Value → Except PyError String
  | .str s => .ok s.toLower
  | v => .error (.attributeError (pyStr v ++ " has no attribute lower"))

/-- Database columns referenced by the translators (the field-accessor tokens
of the schema layer: Host.*, Service.*, Credential.*, Mission.*, Result.*,
CommandOutput.output, Vuln.name, Option.*, Product.*). -/
inductive DbField where
  | hostIp | hostHostname | hostOs | hostOsFamily | hostComment
  | servicePort | serviceName | serviceUp | serviceBanner | serviceUrl
  | serviceHtmlTitle | serviceHttpHeaders | serviceComment | serviceId
  | credUsername | credPassword | credType | credComment
  | missionName | missionComment
  | resultId | resultCheck
  | commandOutput
  | vulnName
  | optionName | optionValue
  | productType | productName | productVersion
deriving DecidableEq, Repr

/-- The Protocol enumeration from lib/db/Service.py. -/
inductive Protocol where
  | TCP
  | UDP
deriving DecidableEq, Repr

/-- Syntax of the SQLAlchemy filter expressions the translators build:
column == value, column.ilike(pattern), column.between(lo, hi),
protocol equality, IS NULL / IS NOT NULL, boolean connectives,
Host.is_in_ip_range(value) (lib/db/Host.py, opaque here), and the
not-exists subquery built by __translate_unscanned. -/
inductive SqlFilter where
  | eq (f : DbField) (v : Value)
  | ilike (f : DbField) (pattern : String)
  | between (f : DbField) (lo hi : Int)
  | eqProto (p : Protocol)
  | isNone (f : DbField)
  | isNotNone (f : DbField)
  | and (p q : SqlFilter)
  | or (p q : SqlFilter)
  | not (p : SqlFilter)
  | inIpRange (v : Value)
  | unscanned
deriving DecidableEq, Repr

/-- Split of a character list on a separator character, keeping empty parts
(model of Python str.split with an explicit separator). -/
def splitChar (sep : Char) : List Char → List (List Char)
  | [] => [[]]
  | c :: rest =>
      match splitChar sep rest with
      | [] => [[]]
      | h :: t => if c == sep then [] :: h :: t else (c :: h) :: t

/-- Decimal octet between 0 and 255, used by the dotted-quad check. -/
def isOctet (cs : List Char) : Bool :=
  cs ≠ [] && cs.all Char.isDigit && digitsToNat cs ≤ 255

/-- Dotted-quad IPv4 string: four octets separated by dots. -/
def isDottedQuad (s : String) : Bool :=
  match splitChar '.' s.data with
  | [a, b, c, d] => isOctet a && isOctet b && isOctet c && isOctet d
  | _ => false

/-- Modelled from the spec: NetUtils.is_valid_ip (lib/utils/NetUtils.py is not
among the analysed sources). The spec accepts a dotted-quad IP value. -/
def is_valid_ip : Value → Bool
  | .str s => isDottedQuad s
  | _ => false

/-- Modelled from the spec: NetUtils.is_valid_ip_range (lib/utils/NetUtils.py
is not among the analysed sources). The spec accepts a CIDR range such as
10.0.0.0/24; a prefix length over 32 (such as 10.0.0.1/33) is invalid. -/
def is_valid_ip_range : Value → Bool
  | .str s =>
      match splitChar '/' s.data with
      | [ip, p] =>
          isDottedQuad (String.mk ip) && p ≠ [] && p.all Char.isDigit && digitsToNat p ≤ 32
      | _ => false
  | _ => false

/-- Modelled from the spec: NetUtils.is_valid_port (lib/utils/NetUtils.py is
not among the analysed sources). The spec accepts an integer string. -/
def is_valid_port (v : Value) : Bool :=
  match v with
  | .str s => (pyParseInt s).isSome
  | .int _ => true
  | .bool _ => true
  | .null => false

/-- Modelled from the spec: NetUtils.is_valid_port_range (lib/utils/NetUtils.py
is not among the analysed sources). The spec accepts a min-max range string
of two integer parts separated by a dash. -/
def is_valid_port_range : Value → Bool
  | .str s =>
      match splitChar '-' s.data with
      | [a, b] => a ≠ [] && a.all Char.isDigit && b ≠ [] && b.all Char.isDigit
      | _ => false
  | _ => false

/-- Translator bound to one FilterData kind: maps one raw value to a filter
(some), to no filter (none), or raises. -/
abbrev Comparator := Value → Except PyError (Option SqlFilter)

/-- Condition.__translate_ip: IP equality, CIDR range membership, or
FilterException embedding the offending value. -/
def translate_ip : Comparator := fun value =>
  if is_valid_ip value then
    .ok (some (.eq .hostIp value))
  else if is_valid_ip_range value then
    .ok (some (.inIpRange value))
  else
    .error (.filterException (pyStr value ++ " invalid IP/range"))

/-- Condition.__translate_host: hostname ILIKE %value%. -/
def translate_host : Comparator := fun value =>
  .ok (some (.ilike .hostHostname ("%" ++ pyStr value ++ "%")))

/-- Condition.__translate_port: exact equality for a valid port; in the
port-range branch the source references the undefined name `Sevrice`
(line 136 of Condition.py), so that branch raises NameError at run time;
otherwise FilterException embedding the offending value. -/
def translate_port : Comparator := fun value =>
  if is_valid_port value then
    match pyInt value with
    | .ok n => .ok (some (.eq .servicePort (.int n)))
    | .error e => .error e
  else if is_valid_port_range value then
    .error (.nameError "Sevrice")
  else
    .error (.filterException (pyStr value ++ " invalid port/range"))

/-- Condition.__translate_protocol: tcp / udp (case-insensitive) or
FilterException. -/
def translate_protocol : Comparator := fun value =>
  match pyLower value with
  | .error e => .error e
  | .ok l =>
      if l = "tcp" then .ok (some (.eqProto .TCP))
      else if l = "udp" then .ok (some (.eqProto .UDP))
      else .error (.filterException (pyStr value ++ " invalid protocol"))

/-- Condition.__translate_up: boolean as-is, string compared to "true",
anything else FilterException. -/
def translate_up : Comparator := fun value =>
  match value with
  | .bool b => .ok (some (.eq .serviceUp (.bool b)))
  | .str s => .ok (some (.eq .serviceUp (.bool (s.toLower = "true"))))
  | _ => .error (.filterException (pyStr value ++ " invalid up status"))

/-- Condition.__translate_service: service name ILIKE %value%. -/
def translate_service : Comparator := fun value =>
  .ok (some (.ilike .serviceName ("%" ++ pyStr value ++ "%")))

/-- Condition.__translate_service_exact: Service.name == value. -/
def translate_service_exact : Comparator := fun value =>
  .ok (some (.eq .serviceName value))

/-- Condition.__translate_service_id: Service.id == int(value); int() raises
ValueError on a non-numeric string. -/
def translate_service_id : Comparator := fun value =>
  match pyInt value with
  | .ok n => .ok (some (.eq .serviceId (.int n)))
  | .error e => .error e

/-- Condition.__translate_os: host OS ILIKE %value%. -/
def translate_os : Comparator := fun value =>
  .ok (some (.ilike .hostOs ("%" ++ pyStr value ++ "%")))

/-- Condition.__translate_os_family: OS family ILIKE %value%. -/
def translate_os_family : Comparator := fun value =>
  .ok (some (.ilike .hostOsFamily ("%" ++ pyStr value ++ "%")))

/-- Condition.__translate_banner: service banner ILIKE %value%. -/
def translate_banner : Comparator := fun value =>
  .ok (some (.ilike .serviceBanner ("%" ++ pyStr value ++ "%")))

/-- Condition.__translate_url: URL ILIKE %value%. -/
def translate_url : Comparator := fun value =>
  .ok (some (.ilike .serviceUrl ("%" ++ pyStr value ++ "%")))

/-- Condition.__translate_url_exact: Service.url == str(value). -/
def translate_url_exact : Comparator := fun value =>
  .ok (some (.eq .serviceUrl (.str (pyStr value))))

/-- Condition.__translate_html_title: HTML title ILIKE %value%. -/
def translate_html_title : Comparator := fun value =>
  .ok (some (.ilike .serviceHtmlTitle ("%" ++ pyStr value ++ "%")))

/-- Condition.__translate_http_headers: HTTP headers ILIKE %value%. -/
def translate_http_headers : Comparator := fun value =>
  .ok (some (.ilike .serviceHttpHeaders ("%" ++ pyStr value ++ "%")))

/-- Condition.__translate_username: credential username ILIKE %value%. -/
def translate_username : Comparator := fun value =>
  .ok (some (.ilike .credUsername ("%" ++ pyStr value ++ "%")))

/-- Condition.__translate_password: credential password ILIKE %value%. -/
def translate_password : Comparator := fun value =>
  .ok (some (.ilike .credPassword ("%" ++ pyStr value ++ "%")))

/-- Condition.__translate_auth_type: credential type ILIKE %value%. -/
def translate_auth_type : Comparator := fun value =>
  .ok (some (.ilike .credType ("%" ++ pyStr value ++ "%")))

/-- Condition.__translate_user_and_pass: when the flag is truthy, username IS
NOT NULL AND password IS NOT NULL; otherwise no filter. -/
def translate_user_and_pass : Comparator := fun boolean =>
  if truthy boolean then
    .ok (some (.and (.isNotNone .credUsername) (.isNotNone .credPassword)))
  else
    .ok none

/-- Condition.__translate_only_user: when the flag is truthy, username IS NOT
NULL AND password IS NULL; otherwise no filter. -/
def translate_only_user : Comparator := fun boolean =>
  if truthy boolean then
    .ok (some (.and (.isNotNone .credUsername) (.isNone .credPassword)))
  else
    .ok none

/-- Condition.__translate_comment_service: service comment ILIKE %value%. -/
def translate_comment_service : Comparator := fun value =>
  .ok (some (.ilike .serviceComment ("%" ++ pyStr value ++ "%")))

/-- Condition.__translate_comment_host: host comment ILIKE %value%. -/
def translate_comment_host : Comparator := fun value =>
  .ok (some (.ilike .hostComment ("%" ++ pyStr value ++ "%")))

/-- Condition.__translate_comment_cred: credential comment ILIKE %value%. -/
def translate_comment_cred : Comparator := fun value =>
  .ok (some (.ilike .credComment ("%" ++ pyStr value ++ "%")))

/-- Condition.__translate_comment_mission: mission comment ILIKE %value%. -/
def translate_comment_mission : Comparator := fun value =>
  .ok (some (.ilike .missionComment ("%" ++ pyStr value ++ "%")))

/-- Condition.__translate_mission_exact: Mission.name == value. -/
def translate_mission_exact : Comparator := fun value =>
  .ok (some (.eq .missionName value))

/-- Condition.__translate_mission: mission name ILIKE %value%. -/
def translate_mission : Comparator := fun value =>
  .ok (some (.ilike .missionName ("%" ++ pyStr value ++ "%")))

/-- Condition.__translate_check_id: Result.id == int(value); int() raises
ValueError on a non-numeric string. -/
def translate_check_id : Comparator := fun value =>
  match pyInt value with
  | .ok n => .ok (some (.eq .resultId (.int n)))
  | .error e => .error e

/-- Condition.__translate_check_name: check name ILIKE %value%. -/
def translate_check_name : Comparator := fun value =>
  .ok (some (.ilike .resultCheck ("%" ++ pyStr value ++ "%")))

/-- Condition.__translate_command_output: output text ILIKE %value%. -/
def translate_command_output : Comparator := fun value =>
  .ok (some (.ilike .commandOutput ("%" ++ pyStr value ++ "%")))

/-- Condition.__translate_vuln: vulnerability name ILIKE %value%. -/
def translate_vuln : Comparator := fun value =>
  .ok (some (.ilike .vulnName ("%" ++ pyStr value ++ "%")))

/-- Condition.__translate_option_name: option name ILIKE %value%. -/
def translate_option_name : Comparator := fun value =>
  .ok (some (.ilike .optionName ("%" ++ pyStr value ++ "%")))

/-- Condition.__translate_option_value: option value ILIKE %value%. -/
def translate_option_value : Comparator := fun value =>
  .ok (some (.ilike .optionValue ("%" ++ pyStr value ++ "%")))

/-- Condition.__translate_product_type: product type ILIKE %value%. -/
def translate_product_type : Comparator := fun value =>
  .ok (some (.ilike .productType ("%" ++ pyStr value ++ "%")))

/-- Condition.__translate_product_name: product name ILIKE %value%. -/
def translate_product_name : Comparator := fun value =>
  .ok (some (.ilike .productName ("%" ++ pyStr value ++ "%")))

/-- Condition.__translate_product_version: product version ILIKE %value%. -/
def translate_product_version : Comparator := fun value =>
  .ok (some (.ilike .productVersion ("%" ++ pyStr value ++ "%")))

/-- Condition.__translate_unscanned: the value is ignored; the filter is the
not-exists subquery over Result joined on the service id. -/
def translate_unscanned : Comparator := fun _ =>
  .ok (some .unscanned)

/-- Modelled from the spec: the FilterData enumeration (lib/core/Constants.py
is not among the analysed sources). The spec lists a closed enumeration of
filter kinds, one per entry of the Condition.__init__ mapping. -/
inductive FilterData where
  | IP | HOST | PORT | PROTOCOL | UP
  | SERVICE | SERVICE_EXACT | SERVICE_ID
  | OS | OS_FAMILY | BANNER | URL | URL_EXACT | HTML_TITLE | HTTP_HEADERS
  | USERNAME | PASSWORD | AUTH_TYPE | USER_AND_PASS | ONLY_USER
  | COMMENT_SERVICE | COMMENT_HOST | COMMENT_CRED | COMMENT_MISSION
  | MISSION_EXACT | MISSION
  | CHECK_ID | CHECK_NAME | COMMAND_OUTPUT | VULN
  | OPTION_NAME | OPTION_VALUE
  | PRODUCT_TYPE | PRODUCT_NAME | PRODUCT_VERSION
  | UNSCANNED
deriving DecidableEq, Repr

/-- The kind-to-translator dictionary built in Condition.__init__ (self.mapping);
dict.get returns None when the key has no entry, hence the Option result. -/
def mapping : FilterData → Option Comparator
  | .IP => some translate_ip
  | .HOST => some translate_host
  | .PORT => some translate_port
  | .PROTOCOL => some translate_protocol
  | .UP => some translate_up
  | .SERVICE => some translate_service
  | .SERVICE_EXACT => some translate_service_exact
  | .SERVICE_ID => some translate_service_id
  | .OS => some translate_os
  | .OS_FAMILY => some translate_os_family
  | .BANNER => some translate_banner
  | .URL => some translate_url
  | .URL_EXACT => some translate_url_exact
  | .HTML_TITLE => some translate_html_title
  | .HTTP_HEADERS => some translate_http_headers
  | .USERNAME => some translate_username
  | .PASSWORD => some translate_password
  | .AUTH_TYPE => some translate_auth_type
  | .USER_AND_PASS => some translate_user_and_pass
  | .ONLY_USER => some translate_only_user
  | .COMMENT_SERVICE => some translate_comment_service
  | .COMMENT_HOST => some translate_comment_host
  | .COMMENT_CRED => some translate_comment_cred
  | .COMMENT_MISSION => some translate_comment_mission
  | .MISSION_EXACT => some translate_mission_exact
  | .MISSION => some translate_mission
  | .CHECK_ID => some translate_check_id
  | .CHECK_NAME => some translate_check_name
  | .COMMAND_OUTPUT => some translate_command_output
  | .VULN => some translate_vuln
  | .OPTION_NAME => some translate_option_name
  | .OPTION_VALUE => some translate_option_value
  | .PRODUCT_TYPE => some translate_product_type
  | .PRODUCT_NAME => some translate_product_name
  | .PRODUCT_VERSION => some translate_product_version
  | .UNSCANNED => some translate_unscanned

/-- The accumulation loop of Condition.translate: result starts as None, each
value is translated in order, None contributions are skipped, later filters
are OR-ed onto the right of the accumulator, and a raised exception aborts
the whole translation. -/
def translateLoop (f : Comparator) : List Value → Option SqlFilter →
    Except PyError (Option SqlFilter)
  | [], acc => .ok acc
  | v :: vs, acc =>
      match f v with
      | .error e => .error e
      | .ok Option.none => translateLoop f vs acc
      | .ok (some p) =>
          match acc with
          | Option.none => translateLoop f vs (some p)
          | some r => translateLoop f vs (some (.or r p))

/-- Core of Condition.translate after the dictionary lookup: when the lookup
returned no translator (`if not method_translate: return None`), the result
is None; otherwise the accumulation loop runs over the values. -/
def translateWith (m : Option Comparator) (values : List Value) :
    Except PyError (Option SqlFilter) :=
  match m with
  | Option.none => .ok Option.none
  | some f => translateLoop f values Option.none

/-- Condition.translate for a condition holding the given filter type and
value list (Condition.__init__ wraps a single value into a one-element
list, so a list models self.value in general). -/
def condTranslate (filtertype : FilterData) (value : List Value) :
    Except PyError (Option SqlFilter) :=
  translateWith (mapping filtertype) value

/-- Python == between model values: numbers compare across bool and int
(True == 1), other cross-type comparisons are unequal. -/
def pyEq : Value → Value → Bool
  | .str a, .str b => a = b
  | .int a, .int b => a = b
  | .bool a, .bool b => a = b
  | .bool a, .int b => (if a then (1 : Int) else 0) = b
  | .int a, .bool b => a = (if b then (1 : Int) else 0)
  | .null, .null => true
  | _, _ => false

/-- SQL LIKE matching of a pattern against a string: % matches any sequence,
_ matches any single character, any other pattern character matches itself;
characters are compared lowercased, giving the case-insensitive ILIKE. -/
def likeMatch : List Char → List Char → Bool
  | [], s => s.isEmpty
  | '%' :: ps, s =>
      likeMatch ps s ||
        (match s with
         | [] => false
         | _ :: s2 => likeMatch ('%' :: ps) s2)
  | '_' :: _, [] => false
  | '_' :: ps, _ :: s => likeMatch ps s
  | _ :: _, [] => false
  | p :: ps, c :: s => (p.toLower == c.toLower) && likeMatch ps s
termination_by p s => (s.length, p.length)

/-- Database row against which a filter is evaluated: a value per column, the
service protocol, plus oracles for the two constructs whose semantics live
outside the analysed sources (Host.is_in_ip_range and the unscanned
subquery). -/
structure Row where
  field : DbField → Value
  proto : Protocol
  ipInRange : Value → Bool
  noScanResult : Bool

/-- Evaluation of a filter expression against a row. -/
def evalSqlFilter (row : Row) : SqlFilter → Bool
  | .eq f v => pyEq (row.field f) v
  | .ilike f pat =>
      match row.field f with
      | .str s => likeMatch pat.data s.data
      | _ => false
  | .between f lo hi =>
      match row.field f with
      | .int n => lo ≤ n && n ≤ hi
      | _ => false
  | .eqProto p => row.proto == p
  | .isNone f => row.field f == .null
  | .isNotNone f => row.field f != .null
  | .and p q => evalSqlFilter row p && evalSqlFilter row q
  | .or p q => evalSqlFilter row p || evalSqlFilter row q
  | .not p => !evalSqlFilter row p
  | .inIpRange v => row.ipInRange v
  | .unscanned => row.noScanResult

/-- True when the translator call returns normally (no exception). -/
def comparatorOk (r : Except PyError (Option SqlFilter)) : Bool :=
  match r with
  | .ok _ => true
  | .error _ => false

/-- True when the result is a raised FilterException. -/
def isFilterException (r : Except PyError (Option SqlFilter)) : Bool :=
  match r with
  | .error (.filterException _) => true
  | _ => false

/-- The non-None filters produced by a translator over a value list, in value
order. -/
def collectFilters (f : Comparator) (values : List Value) : List SqlFilter :=
  values.filterMap (fun v =>
    match f v with
    | .ok (some p) => some p
    | _ => Option.none)

/-- Left-nested OR of a list of filters onto an accumulator, mirroring
`result = result | (translated)` in Condition.translate. -/
def orFoldAux : Option SqlFilter → List SqlFilter → Option SqlFilter
  | acc, [] => acc
  | Option.none, p :: ps => orFoldAux (some p) ps
  | some r, p :: ps => orFoldAux (some (.or r p)) ps

/-- Left-nested OR combination of a list of filters. -/
def orFold (ps : List SqlFilter) : Option SqlFilter :=
  orFoldAux Option.none ps

/-- Atom of the regular expressions used in SERVICE_NAME_MATCHING: a literal
character, an optional literal group such as (sql)? or -?, or the
zero-or-more non-whitespace wildcard written as backslash S star. -/
inductive RAtom where
  | lit (c : Char)
  | opt (cs : List Char)
  | starNS
deriving DecidableEq, Repr

/-- Backtracking matcher for a sequence of atoms at the start of a string,
the semantics of Python re.match with re.IGNORECASE on these patterns
(literal characters compare lowercased); fuel bounds the recursion depth and
is chosen large enough in reMatchAt for these patterns. -/
def reMatch (fuel : Nat) (p : List RAtom) (s : List Char) : Bool :=
  match fuel with
  | 0 => false
  | fuel + 1 =>
      match p, s with
      | [], _ => true
      | .lit c :: ps, d :: ds => c.toLower == d.toLower && reMatch fuel ps ds
      | .lit _ :: _, [] => false
      | .opt cs :: ps, ds =>
          reMatch fuel (cs.map RAtom.lit ++ ps) ds || reMatch fuel ps ds
      | .starNS :: ps, ds =>
          reMatch fuel ps ds ||
            (match ds with
             | [] => false
             | d :: ds2 => !d.isWhitespace && reMatch fuel (.starNS :: ps) ds2)

/-- Sequence of literal atoms for a literal fragment of a pattern. -/
def lits (s : String) : List RAtom :=
  s.data.map RAtom.lit

/-- Match of a SERVICE_NAME_MATCHING pattern at the start of the input
(re.match semantics), with fuel ample for the pattern sizes at hand. -/
def reMatchAt (p : List RAtom) (s : String) : Bool :=
  reMatch (4 * (s.length + 16)) p s.data

/-- The ordered rule table SERVICE_NAME_MATCHING from lib/importer/Config.py;
each left-hand side transcribes the original regular expression. -/
def SERVICE_NAME_MATCHING : List (List RAtom × String) :=
  [ (lits "ajp" ++ [.starNS], "ajp"),                             -- ^ajp\S*
    (lits "ftp" ++ [.starNS], "ftp"),                             -- ^ftp\S*
    ([.starNS] ++ lits "http" ++ [.starNS], "http"),              -- ^\S*http\S*
    (lits "ssl/ssl", "http"),                                     -- ^ssl/ssl
    (lits "rmiregistry", "java-rmi"),                             -- ^rmiregistry
    (lits "jdwp", "jdwp"),                                        -- ^jdwp
    (lits "ms" ++ [.opt ['-']] ++ lits "sql" ++ [.starNS], "mssql"), -- ^ms-?sql\S*
    (lits "mysql" ++ [.starNS], "mysql"),                         -- ^mysql\S*
    (lits "oracle" ++ [.starNS], "oracle"),                       -- ^oracle\S*
    (lits "postgre" ++ [.opt ['s', 'q', 'l']], "postgresql"),     -- ^postgre(sql)?
    (lits "ms-wbt-server", "rdp"),                                -- ^ms-wbt-server
    (lits "rdp", "rdp"),                                          -- ^rdp
    (lits "microsoft-ds", "smb"),                                 -- ^microsoft-ds
    (lits "smb", "smb"),                                          -- ^smb
    (lits "smtp" ++ [.starNS], "smtp"),                           -- ^smtp\S*
    (lits "snmp" ++ [.starNS], "snmp"),                           -- ^snmp\S*
    (lits "ssh", "ssh"),                                          -- ^ssh
    (lits "telnet" ++ [.starNS], "telnet"),                       -- ^telnet\S*
    (lits "vnc", "vnc") ]                                         -- ^vnc

/-- Config.get_service_name: the canonical name of the first rule whose
pattern matches the input case-insensitively, or the input itself when no
rule matches. -/
def get_service_name (original_service_name : String) : String :=
  match SERVICE_NAME_MATCHING.find?
      (fun rule => reMatchAt rule.1 original_service_name) with
  | some rule => rule.2
  | Option.none => original_service_name

/-- The canonical service names: the right-hand sides of the rule table. -/
def canonicalServiceNames : List String :=
  SERVICE_NAME_MATCHING.map Prod.snd

/-- Accumulation lemma for Condition.translate: when every value translates
without an exception, the loop returns the left-nested OR of the non-None
per-value filters appended onto the accumulator. -/
theorem translateLoop_ok (f : Comparator) (vs : List Value) (acc : Option SqlFilter)
    (h : ∀ v ∈ vs, comparatorOk (f v) = true) :
    translateLoop f vs acc = .ok (orFoldAux acc (collectFilters f vs)) := by
  induction vs generalizing acc with
  | nil => cases acc <;> rfl
  | cons v vs ih =>
      have hv := h v (List.mem_cons_self v vs)
      have hrest : ∀ w ∈ vs, comparatorOk (f w) = true :=
        fun w hw => h w (List.mem_cons_of_mem v hw)
      cases hfv : f v with
      | error e => simp [comparatorOk, hfv] at hv
      | ok t =>
          cases t with
          | none =>
              simp only [translateLoop, hfv, collectFilters, List.filterMap_cons]
              exact ih acc hrest
          | some p =>
              cases acc with
              | none =>
                  simp only [translateLoop, hfv, collectFilters, List.filterMap_cons,
                    orFoldAux]
                  exact ih (some p) hrest
              | some r =>
                  simp only [translateLoop, hfv, collectFilters, List.filterMap_cons,
                    orFoldAux]
                  exact ih (some (.or r p)) hrest

/-- Drop lemma for Condition.translate: when every value translates to None,
the loop leaves the accumulator untouched. -/
theorem translateLoop_all_none (f : Comparator) (vs : List Value)
    (acc : Option SqlFilter) (h : ∀ v ∈ vs, f v = .ok Option.none) :
    translateLoop f vs acc = .ok acc := by
  induction vs with
  | nil => rfl
  | cons v vs ih =>
      have hv := h v (List.mem_cons_self v vs)
      simp only [translateLoop, hv]
      exact ih (fun w hw => h w (List.mem_cons_of_mem v hw))

/-- C1: the claim says a Port criterion maps a single valid integer string to
exact equality on the service port field, a min-max value to an inclusive
between filter, and anything else to a FilterException naming the value.
The equality and error cases hold, but on the range input 8000-8100 the
source (Condition.py line 136) references the undefined name Sevrice, so the
range branch raises NameError instead of building the between filter. -/
theorem C1_port_range_branch_raises_NameError :
    condTranslate .PORT [.str "8000"] =
      .ok (some (.eq .servicePort (.int 8000)))
  ∧ condTranslate .PORT [.str "8000-8100"] = .error (.nameError "Sevrice")
  ∧ condTranslate .PORT [.str "abc"] =
      .error (.filterException "abc invalid port/range") :=
  ⟨rfl, rfl, rfl⟩

/-- C2 counterexample: the claim says a non-numeric Service-id value raises a
subtype of FilterValidationError; in the source __translate_service_id calls
int(value) bare, so the value abc raises the builtin ValueError, which is
not a FilterException. -/
theorem C2_counterexample_nonnumeric_id_raises_ValueError :
    condTranslate .SERVICE_ID [.str "abc"] =
      .error (.valueError "invalid literal for int with base 10: abc")
  ∧ isFilterException (condTranslate .SERVICE_ID [.str "abc"]) = false :=
  ⟨rfl, rfl⟩

/-- C2 amended: a Service-id or Check-id criterion with a numeric value string
translates to exact equality between the id column and the parsed integer;
a non-numeric value string raises the integer-parse error (ValueError),
which is not a FilterException. -/
theorem C2_id_translation_amended :
    (∀ s n, pyParseInt s = some n →
        condTranslate .SERVICE_ID [.str s] =
          .ok (some (.eq .serviceId (.int n)))
      ∧ condTranslate .CHECK_ID [.str s] =
          .ok (some (.eq .resultId (.int n))))
  ∧ (∀ s, pyParseInt s = Option.none →
        condTranslate .SERVICE_ID [.str s] =
          .error (.valueError ("invalid literal for int with base 10: " ++ s))
      ∧ condTranslate .CHECK_ID [.str s] =
          .error (.valueError ("invalid literal for int with base 10: " ++ s))
      ∧ isFilterException (condTranslate .SERVICE_ID [.str s]) = false) := by
  constructor
  · intro s n h
    constructor <;>
      simp [condTranslate, translateWith, mapping, translateLoop,
        translate_service_id, translate_check_id, pyInt, h]
  · intro s h
    refine ⟨?_, ?_, ?_⟩ <;>
      simp [condTranslate, translateWith, mapping, translateLoop,
        translate_service_id, translate_check_id, pyInt, h, isFilterException]

/-- C2 witness: the amended statement instantiated at the numeric value 42 and
the non-numeric value abc. -/
theorem C2_id_translation_amended_witness :
    condTranslate .SERVICE_ID [.str "42"] =
      .ok (some (.eq .serviceId (.int 42)))
  ∧ condTranslate .CHECK_ID [.str "abc"] =
      .error (.valueError ("invalid literal for int with base 10: " ++ "abc")) :=
  ⟨(C2_id_translation_amended.1 "42" 42 (by decide)).1,
   (C2_id_translation_amended.2 "abc" (by decide)).2.1⟩

/-- C3: a criterion whose kind has no entry in the kind-to-translator mapping
(dict.get returns None) translates to None: no exception is raised and the
values are never consulted. -/
theorem C3_unknown_kind_inert (vs : List Value) :
    translateWith Option.none vs = .ok Option.none :=
  rfl

/-- C4: for a recognized kind whose translator raises on none of the values,
translate returns the left-nested OR of the non-None per-value filters in
first-to-last value order; for ServiceExact over ssh and ftp the result is
(name == ssh) OR (name == ftp), which evaluates on every row exactly as the
disjunction of the two name comparisons. -/
theorem C4_or_combination :
    (∀ (f : Comparator) (vs : List Value),
        (∀ v ∈ vs, comparatorOk (f v) = true) →
        translateWith (some f) vs = .ok (orFold (collectFilters f vs)))
  ∧ condTranslate .SERVICE_EXACT [.str "ssh", .str "ftp"] =
      .ok (some (.or (.eq .serviceName (.str "ssh"))
                     (.eq .serviceName (.str "ftp"))))
  ∧ (∀ row : Row,
        evalSqlFilter row (.or (.eq .serviceName (.str "ssh"))
                               (.eq .serviceName (.str "ftp"))) =
          (pyEq (row.field .serviceName) (.str "ssh") ||
           pyEq (row.field .serviceName) (.str "ftp"))) :=
  ⟨fun f vs h => translateLoop_ok f vs Option.none h, rfl, fun _ => rfl⟩

/-- C4 witness: the OR-combination statement instantiated at the ServiceExact
translator over the values ssh and ftp. -/
theorem C4_or_combination_witness :
    translateWith (some translate_service_exact) [.str "ssh", .str "ftp"] =
      .ok (orFold (collectFilters translate_service_exact
        [.str "ssh", .str "ftp"])) :=
  C4_or_combination.1 translate_service_exact [.str "ssh", .str "ftp"]
    (by decide)

/-- C5: for every recognized kind, translate over an empty value list returns
None; and whenever every value translates to None (as the boolean presence
flags do for a falsy flag), the overall result is None. -/
theorem C5_empty_or_all_none_yields_none :
    (∀ ft : FilterData, condTranslate ft [] = .ok Option.none)
  ∧ (∀ (f : Comparator) (vs : List Value),
        (∀ v ∈ vs, f v = .ok Option.none) →
        translateWith (some f) vs = .ok Option.none) := by
  constructor
  · intro ft; cases ft <;> rfl
  · intro f vs h
    exact translateLoop_all_none f vs Option.none h

/-- C5 witness: the all-None statement instantiated at the only-user translator
over two falsy flags. -/
theorem C5_empty_or_all_none_yields_none_witness :
    translateWith (some translate_only_user) [.bool false, .bool false] =
      .ok Option.none :=
  C5_empty_or_all_none_yields_none.2 translate_only_user
    [.bool false, .bool false]
    (by intro v hv; simp only [List.mem_cons, List.not_mem_nil, or_false] at hv
        rcases hv with rfl | rfl <;> rfl)

/-- C6: an Address criterion maps a valid dotted-quad IP value to equality on
the host address column, a valid CIDR range value to the range-membership
filter, and any other value to a FilterException whose message embeds the
raw value. -/
theorem C6_address_translation :
    (∀ s, is_valid_ip (.str s) = true →
        condTranslate .IP [.str s] = .ok (some (.eq .hostIp (.str s))))
  ∧ (∀ s, is_valid_ip (.str s) = false → is_valid_ip_range (.str s) = true →
        condTranslate .IP [.str s] = .ok (some (.inIpRange (.str s))))
  ∧ (∀ s, is_valid_ip (.str s) = false → is_valid_ip_range (.str s) = false →
        condTranslate .IP [.str s] =
          .error (.filterException (s ++ " invalid IP/range"))) := by
  refine ⟨fun s h1 => ?_, fun s h1 h2 => ?_, fun s h1 h2 => ?_⟩
  · simp [condTranslate, translateWith, mapping, translateLoop, translate_ip,
      pyStr, h1]
  · simp [condTranslate, translateWith, mapping, translateLoop, translate_ip,
      pyStr, h1, h2]
  · simp [condTranslate, translateWith, mapping, translateLoop, translate_ip,
      pyStr, h1, h2]

/-- C6 witness: the address statement instantiated at a valid IP, a valid /24
CIDR range, and the invalid prefix length /33. -/
theorem C6_address_translation_witness :
    condTranslate .IP [.str "10.0.0.1"] =
      .ok (some (.eq .hostIp (.str "10.0.0.1")))
  ∧ condTranslate .IP [.str "10.0.0.0/24"] =
      .ok (some (.inIpRange (.str "10.0.0.0/24")))
  ∧ condTranslate .IP [.str "10.0.0.1/33"] =
      .error (.filterException ("10.0.0.1/33" ++ " invalid IP/range")) :=
  ⟨C6_address_translation.1 "10.0.0.1" (by decide),
   C6_address_translation.2.1 "10.0.0.0/24" (by decide) (by decide),
   C6_address_translation.2.2 "10.0.0.1/33" (by decide) (by decide)⟩

/-- C7: the credential presence flags translate the value False to None and
the value True to a non-None filter; has-username-and-password requires
username IS NOT NULL AND password IS NOT NULL, has-only-username requires
username IS NOT NULL AND password IS NULL. -/
theorem C7_presence_flag_asymmetry :
    condTranslate .ONLY_USER [.bool false] = .ok Option.none
  ∧ condTranslate .ONLY_USER [.bool true] =
      .ok (some (.and (.isNotNone .credUsername) (.isNone .credPassword)))
  ∧ condTranslate .USER_AND_PASS [.bool false] = .ok Option.none
  ∧ condTranslate .USER_AND_PASS [.bool true] =
      .ok (some (.and (.isNotNone .credUsername) (.isNotNone .credPassword))) :=
  ⟨rfl, rfl, rfl, rfl⟩

/-- C10: the presence-flag translators decide by Python truthiness and never
raise: for every value the result is Ok, with the presence filter exactly
when the value is truthy; in particular the non-empty string false and the
integer 1 yield the filter, while 0, the empty string and None yield None. -/
theorem C10_presence_flags_truthiness :
    (∀ v : Value,
        translate_user_and_pass v =
          .ok (if truthy v then
                some (.and (.isNotNone .credUsername) (.isNotNone .credPassword))
              else Option.none)
      ∧ translate_only_user v =
          .ok (if truthy v then
                some (.and (.isNotNone .credUsername) (.isNone .credPassword))
              else Option.none))
  ∧ condTranslate .USER_AND_PASS [.str "false"] =
      .ok (some (.and (.isNotNone .credUsername) (.isNotNone .credPassword)))
  ∧ condTranslate .ONLY_USER [.int 1] =
      .ok (some (.and (.isNotNone .credUsername) (.isNone .credPassword)))
  ∧ condTranslate .USER_AND_PASS [.int 0] = .ok Option.none
  ∧ condTranslate .ONLY_USER [.str ""] = .ok Option.none
  ∧ condTranslate .USER_AND_PASS [.null] = .ok Option.none := by
  refine ⟨fun v => ?_, rfl, rfl, rfl, rfl, rfl⟩
  cases htv : truthy v <;>
    simp [translate_user_and_pass, translate_only_user, htv]

/-- C8: get_service_name returns the canonical name of the first rule whose
pattern matches the input case-insensitively and the input unchanged when no
rule matches: https-wmap normalizes to http, rdp-sec to rdp, and
foobar-proto to itself. -/
theorem C8_get_service_name_first_match :
    get_service_name "https-wmap" = "http"
  ∧ get_service_name "rdp-sec" = "rdp"
  ∧ get_service_name "foobar-proto" = "foobar-proto"
  ∧ (∀ s, (∀ rule ∈ SERVICE_NAME_MATCHING, reMatchAt rule.1 s = false) →
        get_service_name s = s) := by
  refine ⟨rfl, rfl, rfl, fun s h => ?_⟩
  unfold get_service_name
  rw [List.find?_eq_none.mpr (fun rule hr => by simp [h rule hr])]

/-- C8 witness: the identity fallback instantiated at foobar-proto, where every
rule fails to match. -/
theorem C8_get_service_name_first_match_witness :
    get_service_name "foobar-proto" = "foobar-proto" :=
  C8_get_service_name_first_match.2.2.2 "foobar-proto" (by decide)

/-- C9: get_service_name is idempotent on every canonical service name (every
right-hand side of the rule table). -/
theorem C9_normalize_idempotent_on_canonical :
    ∀ s ∈ canonicalServiceNames,
      get_service_name (get_service_name s) = get_service_name s := by
  decide

/-- C9 witness: idempotence instantiated at the canonical name http. -/
theorem C9_normalize_idempotent_on_canonical_witness :
    get_service_name (get_service_name "http") = get_service_name "http" :=
  C9_normalize_idempotent_on_canonical "http" (by decide)
